import Mathlib

/-!
Verification of the SmartDict Telex dictionary agent.

The development shallowly embeds the two core components of the repository:

* `DictionaryAgent` (src/dictionary_agent.py): the pure text-processing
  pipeline `process_message` / `_extract_word`, the outbound lookup
  `lookup_word` (with the HTTP call abstracted as an oracle
  `String → Nat → HttpResult`, the arguments being the URL and the timeout
  in seconds), and the response formatter `_format_definition` over the
  upstream dictionary JSON shape.
* `A2AHandler` (src/a2a_handler.py): the JSON-RPC dispatcher
  `handle_a2a_message` / `_handle_message` over JSON values.  A Python
  exception is modelled as the `Except.error` branch carrying `str(e)`;
  every `try/except` of the source becomes an explicit `match` on that
  branch.  The agent call inside `_handle_message` is abstracted as an
  oracle `process : String → Except String String` so that faults of the
  agent can be modelled.

JSON numbers are modelled as integers (no claim involves a non-integer
number).  Python's `str()` of lists and dicts is modelled without escape
handling inside string literals, which no dispatch path compares.
-/

namespace TelexDict

/-! ### Python string primitives

Python `str.strip()`, `str.split()`, `str.lower()`, `str.upper()` and
`str.startswith` are modelled character-exactly on the code-point lists;
Python's whitespace set for `strip`/`split` is space, tab, newline,
carriage return, vertical tab and form feed. -/

def pyWS (c : Char) : Bool :=
  c == ' ' || c == '\t' || c == '\n' || c == '\r' || c == '\x0b' || c == '\x0c'

/-- Python `s.strip()`. -/
def pyStrip (s : String) : String :=
  String.mk (((s.data.dropWhile pyWS).reverse.dropWhile pyWS).reverse)

def splitWSAux : List Char → List Char → List String
  | [], [] => []
  | [], cur => [String.mk cur.reverse]
  | c :: cs, cur =>
    if pyWS c then
      match cur with
      | [] => splitWSAux cs []
      | _ => String.mk cur.reverse :: splitWSAux cs []
    else splitWSAux cs (c :: cur)

/-- Python `s.split()` with no argument: split on runs of whitespace,
discarding empty pieces. -/
def pySplit (s : String) : List String :=
  splitWSAux s.data []

/-- Python `s.lower()` (ASCII; every string the claims exercise is ASCII). -/
def pyLower (s : String) : String :=
  String.mk (s.data.map Char.toLower)

/-- Python `s.upper()` (ASCII). -/
def pyUpper (s : String) : String :=
  String.mk (s.data.map Char.toUpper)

/-- Python `s.startswith(p)`. -/
def pyStartsWith (s p : String) : Bool :=
  p.data.isPrefixOf s.data

/-- Python `s[n:]` (slicing by code points). -/
def pyDrop (s : String) (n : Nat) : String :=
  String.mk (s.data.drop n)

/-- Concatenation of a list of strings. -/
def strJoin : List String → String
  | [] => ""
  | s :: l => s ++ strJoin l

/-- Python `sep.join(l)`. -/
def joinSep (sep : String) : List String → String
  | [] => ""
  | [s] => s
  | s :: l => s ++ sep ++ joinSep sep l

/-! ### JSON values -/

/-- A JSON value, as produced by parsing the webhook body.  Python `None`,
booleans, numbers, strings, lists and dicts. -/
inductive JVal where
  | null
  | bool (b : Bool)
  | num (n : Int)
  | str (s : String)
  | arr (elems : List JVal)
  | obj (fields : List (String × JVal))

/-- Python truthiness of a JSON value (`bool(v)`). -/
def truthy : JVal → Bool
  | .null => false
  | .bool b => b
  | .num n => n != 0
  | .str s => s != ""
  | .arr elems => !elems.isEmpty
  | .obj fields => !fields.isEmpty

/-- Lookup of a key in a dict (first binding wins; Python dicts have unique
keys, so an association list is a faithful model). -/
def lookupField : List (String × JVal) → String → Option JVal
  | [], _ => none
  | (k, v) :: fs, key => if k = key then some v else lookupField fs key

/-- Python `d.get(k)`: `None` when the key is absent. -/
def jget (fields : List (String × JVal)) (key : String) : JVal :=
  (lookupField fields key).getD .null

/-- Field access on a JSON value that is known to be an object. -/
def getField (v : JVal) (key : String) : Option JVal :=
  match v with
  | .obj fields => lookupField fields key
  | _ => none

/-- Python `type(v).__name__` for a JSON value, as it appears in
`AttributeError` messages. -/
def pyTypeName : JVal → String
  | .null => "NoneType"
  | .bool _ => "bool"
  | .num _ => "int"
  | .str _ => "str"
  | .arr _ => "list"
  | .obj _ => "dict"

mutual

/-- Python `repr(v)` of a JSON value (string escaping inside elements is not
modelled; no dispatch path compares these strings). -/
def pyRepr : JVal → String
  | .null => "None"
  | .bool true => "True"
  | .bool false => "False"
  | .num n => toString n
  | .str s => "'" ++ s ++ "'"
  | .arr elems => "[" ++ pyReprElems elems ++ "]"
  | .obj fields => "\x7b" ++ pyReprFields fields ++ "\x7d"

def pyReprElems : List JVal → String
  | [] => ""
  | [v] => pyRepr v
  | v :: vs => pyRepr v ++ ", " ++ pyReprElems vs

def pyReprFields : List (String × JVal) → String
  | [] => ""
  | [(k, v)] => "'" ++ k ++ "': " ++ pyRepr v
  | (k, v) :: fs => "'" ++ k ++ "': " ++ pyRepr v ++ ", " ++ pyReprFields fs

end

/-- Python `str(v)` (f-string interpolation) of a JSON value. -/
def pyStr : JVal → String
  | .str s => s
  | v => pyRepr v

/-- Python `v == "s"` for a JSON value against a string literal: true exactly
for the equal string (no other JSON type compares equal to a `str`). -/
def pyEqStr (v : JVal) (s : String) : Bool :=
  match v with
  | .str t => t == s
  | _ => false

/-! ### DictionaryAgent (src/dictionary_agent.py) -/

/-- `DictionaryAgent.api_base_url`. -/
def api_base_url : String := "https://api.dictionaryapi.dev/api/v2/entries/en"

/-- `DictionaryAgent.name`. -/
def agent_name : String := "SmartDict Bot"

/-- `DictionaryAgent.help_message` (the triple-quoted literal, including the
whitespace-only second line and the trailing newline). -/
def help_message : String :=
  "📖 **SmartDict Bot - How to Use**\n        \nI can help you look up word definitions! Here's how:\n\n- `define [word]` - Get full definition\n- `meaning [word]` - Get meaning\n- `[word]` - Just type any word\n- `help` - Show this message\n\nExamples:\n- define ephemeral\n- meaning serendipity\n- eloquent\n"

/-- The greeting returned for `hello`/`hi`/`hey`/`greetings`, with
`{self.name}` already interpolated. -/
def greet_message : String :=
  "👋 Hello! I'm SmartDict Bot. Send me any word or type 'help' to learn how to use me!"

/-- The fixed prompt returned when no word could be extracted. -/
def no_word_prompt : String :=
  "❓ Please provide a word to look up. Type 'help' for usage instructions."

/-- The trigger list of the help branch of `process_message`. -/
def helpTriggers : List String := ["help", "/help", "how to use"]

/-- The trigger list of the greeting branch of `process_message`. -/
def greetTriggers : List String := ["hello", "hi", "hey", "greetings"]

/-- The prefix list of `_extract_word`, in source order. -/
def keywordPrefixes : List String :=
  ["define ", "meaning ", "what is ", "whats ",
   "definition of ", "meaning of ", "define: ", "meaning: "]

/-- `DictionaryAgent._extract_word`: the first matching prefix (against the
lower-cased, stripped message) is removed from the original message, and the
first whitespace token of the stripped remainder is the word (`None` when the
remainder is empty); without a prefix match the word is the first whitespace
token of the message (`None` when there is none). -/
def extract_word (message : String) : Option String :=
  let message_lower := pyStrip (pyLower message)
  match keywordPrefixes.find? (fun p => pyStartsWith message_lower p) with
  | some p =>
    let word := pyStrip (pyDrop message p.length)
    if word ≠ "" then (pySplit word).head? else none
  | none => (pySplit message).head?

/-- `DictionaryAgent.process_message`.  The outbound lookup
(`lookup_word`, which performs HTTP) is abstracted as the argument
`lookup`; Python's `if not word` covers both `None` and the empty
string. -/
def process_message (lookup : String → String) (message0 : String) : String :=
  let message := pyStrip message0
  let message_lower := pyLower message
  if message_lower ∈ helpTriggers then help_message
  else if message_lower ∈ greetTriggers then greet_message
  else
    match extract_word message with
    | none => no_word_prompt
    | some w => if w = "" then no_word_prompt else lookup w

/-! ### The upstream dictionary response shape and the formatter -/

/-- One definition object of the upstream response; `definition` and
`example` (`ex` here, `example` being a Lean keyword) are read with
`.get(k, '')`. -/
structure JDefinition where
  definition : Option String
  ex : Option String

/-- One meaning object of the upstream response. -/
structure JMeaning where
  partOfSpeech : Option String
  definitions : Option (List JDefinition)
  synonyms : Option (List String)

/-- One entry object of the upstream response. -/
structure JEntry where
  phonetic : Option String
  meanings : Option (List JMeaning)

/-- The header line of `_format_definition`: word upper-cased, phonetic in
italics when truthy, then a blank line. -/
def format_header (word phonetic : String) : String :=
  "📖 **" ++ pyUpper word ++ "**" ++
    (if phonetic ≠ "" then " _" ++ phonetic ++ "_" else "") ++ "\n\n"

/-- The meanings loop of `_format_definition`: `count` is the Python counter
before the iteration; a meaning with an empty (or absent) `definitions` list
adds nothing and leaves the counter unchanged. -/
def format_meanings : Nat → List JMeaning → String
  | _, [] => ""
  | count, m :: ms =>
    match m.definitions.getD [] with
    | [] => format_meanings count ms
    | d :: _ =>
      "**" ++ toString (count + 1) ++ ". (" ++ m.partOfSpeech.getD "unknown" ++ ")**\n" ++
      "   " ++ d.definition.getD "" ++ "\n" ++
      (if d.ex.getD "" ≠ "" then "   💡 Example: _" ++ d.ex.getD "" ++ "_\n" else "") ++
      "\n" ++ format_meanings (count + 1) ms

/-- The synonyms line of `_format_definition`: emitted when
`meanings[0].get('synonyms')` is truthy, listing the first five,
comma-joined. -/
def syn_line (m0 : JMeaning) : String :=
  if m0.synonyms.getD [] ≠ [] then
    "🔄 Similar words: " ++ joinSep ", " ((m0.synonyms.getD []).take 5) ++ "\n"
  else ""

/-- `DictionaryAgent._format_definition` on a parsed response.  The typed
shape above makes every field access of the source total, so the
formatter's own `try/except` never fires in the model. -/
def format_definition (word : String) (data : List JEntry) : String :=
  match data with
  | [] => "❌ No definition found for '" ++ word ++ "'."
  | entry :: _ =>
    let phonetic := entry.phonetic.getD ""
    match entry.meanings.getD [] with
    | [] => "❌ No meanings found for '" ++ word ++ "'."
    | m0 :: ms =>
      pyStrip (format_header word phonetic ++
        format_meanings 0 ((m0 :: ms).take 3) ++ syn_line m0)

/-! ### The HTTP lookup -/

/-- Outcome of `requests.get(url, timeout=10)` followed by `.json()`:
a timeout, some other transport fault carrying `str(e)`, or a status code
with the parse result of the body (`none` when `.json()` raises). -/
inductive HttpResult where
  | timeout
  | fault (msg : String)
  | ok (status : Nat) (body : Option (List JEntry))

/-- The URL built by `lookup_word`: the f-string
`f"{self.api_base_url}/{word.lower()}"`. -/
def lookup_url (word : String) : String :=
  api_base_url ++ "/" ++ pyLower word

def not_found_msg (word : String) : String :=
  "❌ Sorry, I couldn't find '" ++ word ++ "' in my dictionary. Please check the spelling."

def trouble_msg (word : String) : String :=
  "⚠️ I had trouble looking up '" ++ word ++ "'. Please try again later."

def timeout_msg (word : String) : String :=
  "⏱️ Request timed out while looking up '" ++ word ++ "'. Please try again."

def unexpected_msg : String :=
  "❌ An unexpected error occurred. Please try again."

/-- `DictionaryAgent.lookup_word`, with the HTTP client abstracted as the
oracle `http` taking the URL and the timeout in seconds. -/
def lookup_word (http : String → Nat → HttpResult) (word : String) : String :=
  match http (lookup_url word) 10 with
  | .timeout => timeout_msg word
  | .fault _ => unexpected_msg
  | .ok status body =>
    if status = 404 then not_found_msg word
    else if status ≠ 200 then trouble_msg word
    else
      match body with
      | none => unexpected_msg
      | some data => format_definition word data

/-! ### A2AHandler (src/a2a_handler.py) -/

/-- `A2AHandler._create_success_response`. -/
def create_success_response (request_id : JVal) (result : JVal) : JVal :=
  .obj [("jsonrpc", .str "2.0"), ("result", result), ("id", request_id)]

/-- `A2AHandler._create_error_response`. -/
def create_error_response (request_id : JVal) (code : Int) (message : String) : JVal :=
  .obj [("jsonrpc", .str "2.0"),
        ("error", .obj [("code", .num code), ("message", .str message)]),
        ("id", request_id)]

/-- The `result` dict built by `_handle_message` around the agent's reply,
in source field order. -/
def message_result (bot_response : String) : JVal :=
  .obj [("type", .str "message"),
        ("content", .str bot_response),
        ("format", .str "text"),
        ("message", .str bot_response),
        ("text", .str bot_response),
        ("response", .str bot_response),
        ("status", .str "success"),
        ("agent", .str "SmartDict Bot")]

/-- `A2AHandler._get_agent_info`. -/
def agent_info : JVal :=
  .obj [("name", .str "SmartDict Bot"),
        ("version", .str "1.0.0"),
        ("capabilities", .arr [.str "message", .str "definitions", .str "examples"]),
        ("commands", .arr [.str "define", .str "meaning", .str "help"]),
        ("status", .str "online")]

/-- The field names tried by `_handle_message`, in source order. -/
def msg_keys : List String := ["message", "text", "content", "input"]

/-- The Python `or`-chain `params.get(k1) or ... or ""`: first truthy field
value wins, else the terminal `""`. -/
def or_chain (fields : List (String × JVal)) : List String → JVal
  | [] => .str ""
  | k :: ks => if truthy (jget fields k) then jget fields k else or_chain fields ks

/-- The message-text extraction of `_handle_message`.  When `params` is not a
dict, the first `.get` raises `AttributeError` (the message text depends only
on the type of `params`, so collapsing the four sequential `.get` calls into
one test is faithful). -/
def extract_message_text : JVal → Except String JVal
  | .obj fields => .ok (or_chain fields msg_keys)
  | v => .error ("'" ++ pyTypeName v ++ "' object has no attribute 'get'")

/-- `A2AHandler._handle_message`.  Its `try` spans the whole body, so every
fault inside it — the `.get` on a non-dict `params`, `.strip()` on a truthy
non-string, or a fault of the agent oracle `process` — is caught here and
mapped to `-32603` with the `"Error processing message: "` prefix.  The
`user`/`channel` reads between extraction and the emptiness test only feed
logging and cannot fault, so they are omitted. -/
def handle_message (process : String → Except String String)
    (params : JVal) (request_id : JVal) : JVal :=
  match extract_message_text params with
  | .error e =>
    create_error_response request_id (-32603) ("Error processing message: " ++ e)
  | .ok message_text =>
    if truthy message_text = false then
      create_error_response request_id (-32602) "No message content provided"
    else
      match message_text with
      | .str s =>
        if pyStrip s = "" then
          create_error_response request_id (-32602) "No message content provided"
        else
          match process s with
          | .ok bot_response =>
            create_success_response request_id (message_result bot_response)
          | .error e =>
            create_error_response request_id (-32603) ("Error processing message: " ++ e)
      | v =>
        create_error_response request_id (-32603)
          ("Error processing message: '" ++ pyTypeName v ++ "' object has no attribute 'strip'")

/-- `A2AHandler.handle_a2a_message` on a JSON object payload (its declared
`Dict[str, Any]` input type).  On a dict payload every operation of the outer
`try` body is total and every fault of the `"message"` branch is already
caught inside `_handle_message`, so the outer `except` (which would map to
`-32603` with the `"Internal error: "` prefix) is unreachable and the
dispatcher is a total function. -/
def handle_a2a_message (process : String → Except String String)
    (payload : List (String × JVal)) : JVal :=
  if pyEqStr (jget payload "jsonrpc") "2.0" = false then
    create_error_response (jget payload "id") (-32600) "Invalid JSON-RPC version"
  else
    let method := jget payload "method"
    let params := (lookupField payload "params").getD (.obj [])
    let request_id := jget payload "id"
    if pyEqStr method "message" then
      handle_message process params request_id
    else if pyEqStr method "ping" then
      create_success_response request_id
        (.obj [("status", .str "ok"), ("agent", .str "SmartDict Bot")])
    else if pyEqStr method "info" then
      create_success_response request_id agent_info
    else
      create_error_response request_id (-32601) ("Method not found: " ++ pyStr method)

/-! ### Spec-side definitions, for comparison against the code -/

/-- Well-formedness of a JSON-RPC response, following the spec: an object
with protocol version `"2.0"`, the request id echoed, and exactly one of
`result`/`error` present. -/
def wellFormedResp (idv r : JVal) : Prop :=
  getField r "jsonrpc" = some (.str "2.0") ∧
  getField r "id" = some idv ∧
  (getField r "result").isSome = !(getField r "error").isSome

/-- Spec-side reading of a params field as text: a string value, or nothing. -/
def field_text (fields : List (String × JVal)) (key : String) : Option String :=
  match lookupField fields key with
  | some (.str s) => some s
  | _ => none

/-- Spec-side extraction: try `message`, `text`, `content`, `input` in order,
first non-empty string wins, else the empty string. -/
def spec_first_text (fields : List (String × JVal)) : String :=
  (((msg_keys.filterMap (field_text fields)).filter (fun s => s ≠ "")).headD "")

/-- Each of the four tried params fields is absent or holds a string. -/
def stringFields (fields : List (String × JVal)) : Bool :=
  msg_keys.all fun k =>
    match lookupField fields k with
    | none => true
    | some (.str _) => true
    | some _ => false

/-- Spec-side meaning selection: the first three meanings are taken
positionally from the raw list, and only then are the meanings with no
definitions dropped. -/
def surviving (ms : List JMeaning) : List JMeaning :=
  (ms.take 3).filter (fun m => !(m.definitions.getD []).isEmpty)

/-- Spec-side rendering of one numbered entry, `n` being its 1-based visible
number: part of speech, the first definition's text, and an example line
exactly when that definition carries a non-empty example. -/
def render_entry (n : Nat) (m : JMeaning) : String :=
  match m.definitions.getD [] with
  | [] => ""
  | d :: _ =>
    "**" ++ toString n ++ ". (" ++ m.partOfSpeech.getD "unknown" ++ ")**\n" ++
    "   " ++ d.definition.getD "" ++ "\n" ++
    (if d.ex.getD "" ≠ "" then "   💡 Example: _" ++ d.ex.getD "" ++ "_\n" else "") ++
    "\n"

/-- Modelled from the spec: the spec's `urlEncode` — percent-encoding of every
character outside the unreserved set (ASCII model, uppercase hex), which the
source never performs. -/
def urlEncodeChar (c : Char) : String :=
  if c.isAlphanum || c = '-' || c = '.' || c = '_' || c = '~' then String.mk [c]
  else String.mk ['%', Char.ofNat (if c.toNat / 16 < 10 then 48 + c.toNat / 16 else 55 + c.toNat / 16),
                  Char.ofNat (if c.toNat % 16 < 10 then 48 + c.toNat % 16 else 55 + c.toNat % 16)]

/-- Modelled from the spec: `urlEncode` over a string. -/
def urlEncode (s : String) : String :=
  strJoin (s.data.map urlEncodeChar)

/-! ### Helper lemmas -/

theorem enumFrom_cons' {α : Type} (n : Nat) (a : α) (l : List α) :
    List.enumFrom n (a :: l) = (n, a) :: List.enumFrom (n + 1) l := rfl

/-- The meanings loop renders exactly the meanings that survive the
empty-definitions filter, numbered contiguously starting at `n + 1`. -/
theorem format_meanings_enum (l : List JMeaning) (n : Nat) :
    format_meanings n l =
      strJoin (((l.filter (fun m => !(m.definitions.getD []).isEmpty)).enumFrom (n + 1)).map
        (fun p => render_entry p.1 p.2)) := by
  induction l generalizing n with
  | nil => rfl
  | cons m ms ih =>
    cases hd : m.definitions.getD [] with
    | nil =>
      simp only [format_meanings, hd, List.filter_cons, List.isEmpty_nil, Bool.not_true,
        Bool.false_eq_true, if_false]
      exact ih n
    | cons d ds =>
      simp only [format_meanings, hd, List.filter_cons, List.isEmpty_cons, Bool.not_false,
        if_true, enumFrom_cons', List.map_cons, strJoin]
      rw [render_entry, hd]
      rw [ih (n + 1)]

/-! ### Claim theorems -/

/-- C5 counterexample: `process("define")` does not return the fixed
"provide a word" prompt — it performs a lookup of the word `define`
(none of the recognised prefixes matches, because they all carry a
trailing separator). -/
theorem C5_counterexample :
    process_message (fun w => "LOOKUP:" ++ w) "define" = "LOOKUP:define" ∧
    process_message (fun w => "LOOKUP:" ++ w) "define" ≠
      "Please provide a word to look up. Type 'help' for usage instructions." ∧
    process_message (fun w => "LOOKUP:" ++ w) "define" ≠ no_word_prompt := by
  refine ⟨rfl, ?_, ?_⟩ <;> decide

/-- C5 (amended): the input `define` matches no recognised prefix (each
prefix ends in a separator), so it is treated as a bare word: the word
`define` is extracted and handed to the lookup. -/
theorem C5_bare_define_looked_up (lookup : String → String) :
    extract_word "define" = some "define" ∧
    process_message lookup "define" = lookup "define" :=
  ⟨rfl, rfl⟩

/-- C7 counterexample: the source builds the URL with the raw lowercased
word, without URL-encoding; for the word `a/b` the two differ. -/
theorem C7_counterexample :
    lookup_url "a/b" = "https://api.dictionaryapi.dev/api/v2/entries/en/a/b" ∧
    api_base_url ++ "/" ++ urlEncode (pyLower "a/b") =
      "https://api.dictionaryapi.dev/api/v2/entries/en/a%2Fb" ∧
    lookup_url "a/b" ≠ api_base_url ++ "/" ++ urlEncode (pyLower "a/b") := by
  refine ⟨rfl, rfl, ?_⟩
  decide

/-- C7 (amended): for every looked-up word, the only request `lookup_word`
performs is an HTTP GET to the API base followed by `/` and the lowercased
word verbatim (no URL-encoding), with the fixed 10-second timeout: the
result depends on the HTTP oracle only at that URL and timeout. -/
theorem C7_url_verbatim (word : String) (h1 h2 : String → Nat → HttpResult)
    (h : h1 (lookup_url word) 10 = h2 (lookup_url word) 10) :
    lookup_word h1 word = lookup_word h2 word ∧
    lookup_url word = api_base_url ++ "/" ++ pyLower word := by
  constructor
  · unfold lookup_word
    rw [h]
  · rfl

theorem C7_witness :
    ((fun (_ : String) (_ : Nat) => HttpResult.timeout) (lookup_url "cat") 10 =
      (fun (_ : String) (t : Nat) =>
        if t = 10 then HttpResult.timeout else HttpResult.fault "x") (lookup_url "cat") 10) ∧
    (lookup_word (fun _ _ => HttpResult.timeout) "cat" =
      lookup_word (fun _ t => if t = 10 then HttpResult.timeout else HttpResult.fault "x") "cat" ∧
     lookup_url "cat" = api_base_url ++ "/" ++ pyLower "cat") :=
  ⟨rfl, C7_url_verbatim "cat" (fun _ _ => HttpResult.timeout)
    (fun _ t => if t = 10 then HttpResult.timeout else HttpResult.fault "x") rfl⟩

/-- C9: every input whose stripped lower-casing is exactly one of the help
triggers yields the fixed help text, independent of casing and surrounding
whitespace; in particular `process("help")` and `process("HELP")` agree. -/
theorem C9_help_case_insensitive (lookup : String → String) (m : String)
    (h : pyLower (pyStrip m) ∈ helpTriggers) :
    process_message lookup m = help_message ∧
    process_message lookup "help" = process_message lookup "HELP" := by
  constructor
  · simp only [process_message]
    rw [if_pos h]
  · rfl

theorem C9_witness :
    pyLower (pyStrip " HELP ") ∈ helpTriggers ∧
    (process_message id " HELP " = help_message ∧
     process_message id "help" = process_message id "HELP") :=
  ⟨by decide, C9_help_case_insensitive id " HELP " (by decide)⟩

/-- C10: an HTTP-200 response whose first entry has an empty or absent
meanings list is formatted as the fixed "No meanings found" message. -/
theorem C10_no_meanings_message (word : String) (e : JEntry) (rest : List JEntry)
    (h : e.meanings = none ∨ e.meanings = some []) :
    format_definition word (e :: rest) = "❌ No meanings found for '" ++ word ++ "'." := by
  rcases h with h | h <;> simp [format_definition, h]

theorem C10_witness :
    ((⟨some "/x/", none⟩ : JEntry).meanings = none ∨
      (⟨some "/x/", none⟩ : JEntry).meanings = some []) ∧
    format_definition "cat" [⟨some "/x/", none⟩] = "❌ No meanings found for 'cat'." :=
  ⟨Or.inl rfl, C10_no_meanings_message "cat" ⟨some "/x/", none⟩ [] (Or.inl rfl)⟩

/-- C8: `lookup_word` is a total function of the HTTP outcome, and every
upstream failure class maps to its fixed human-readable string: 404 to the
not-found message carrying the word, any other non-200 status to the
"trouble looking up" message carrying the word, a timeout to the
timeout-specific message, any other transport fault to the fixed generic
message; and the timeout message is distinct from both the not-found and
the generic strings. -/
theorem C8_failure_messages (word : String) (http : String → Nat → HttpResult) :
    (http (lookup_url word) 10 = HttpResult.timeout →
      lookup_word http word = timeout_msg word) ∧
    (∀ body, http (lookup_url word) 10 = HttpResult.ok 404 body →
      lookup_word http word = not_found_msg word) ∧
    (∀ status body, http (lookup_url word) 10 = HttpResult.ok status body →
      status ≠ 404 → status ≠ 200 → lookup_word http word = trouble_msg word) ∧
    (∀ msg, http (lookup_url word) 10 = HttpResult.fault msg →
      lookup_word http word = unexpected_msg) ∧
    timeout_msg word ≠ not_found_msg word ∧
    timeout_msg word ≠ unexpected_msg := by
  have hT : (timeout_msg word).data.head? = some '⏱' := by
    unfold timeout_msg
    rw [String.data_append, String.data_append]
    rfl
  refine ⟨?_, ?_, ?_, ?_, ?_, ?_⟩
  · intro h
    unfold lookup_word
    rw [h]
  · intro body h
    unfold lookup_word
    rw [h]
    simp
  · intro status body h h404 h200
    unfold lookup_word
    rw [h]
    simp [h404, h200]
  · intro msg h
    unfold lookup_word
    rw [h]
  · intro hEq
    have hN : (not_found_msg word).data.head? = some '❌' := by
      unfold not_found_msg
      rw [String.data_append, String.data_append]
      rfl
    rw [hEq, hN] at hT
    exact absurd (Option.some.inj hT) (by decide)
  · intro hEq
    have hU : (unexpected_msg).data.head? = some '❌' := rfl
    rw [hEq, hU] at hT
    exact absurd (Option.some.inj hT) (by decide)

theorem C8_witness :
    ((fun (_ : String) (_ : Nat) => HttpResult.timeout) (lookup_url "cat") 10 =
      HttpResult.timeout) ∧
    lookup_word (fun _ _ => HttpResult.timeout) "cat" = timeout_msg "cat" ∧
    lookup_word (fun _ _ => HttpResult.ok 404 none) "cat" = not_found_msg "cat" ∧
    lookup_word (fun _ _ => HttpResult.ok 500 none) "cat" = trouble_msg "cat" ∧
    lookup_word (fun _ _ => HttpResult.fault "x") "cat" = unexpected_msg :=
  ⟨rfl,
   (C8_failure_messages "cat" (fun _ _ => HttpResult.timeout)).1 rfl,
   (C8_failure_messages "cat" (fun _ _ => HttpResult.ok 404 none)).2.1 none rfl,
   (C8_failure_messages "cat" (fun _ _ => HttpResult.ok 500 none)).2.2.1 500 none rfl
     (by decide) (by decide),
   (C8_failure_messages "cat" (fun _ _ => HttpResult.fault "x")).2.2.2.1 "x" rfl⟩

/-- C6: for a response whose first entry has a (non-empty) meanings list,
the formatted output's meaning section is exactly the take-3-then-filter
selection, rendered with a contiguous 1-based counter over the surviving
meanings (each with part of speech, first definition text and an example
line exactly when that definition has a non-empty example), and at most
three entries are numbered. -/
theorem C6_window_then_filter (word : String) (e : JEntry) (rest : List JEntry)
    (m0 : JMeaning) (ms : List JMeaning) (h : e.meanings = some (m0 :: ms)) :
    format_definition word (e :: rest) =
      pyStrip (format_header word (e.phonetic.getD "") ++
        strJoin (((surviving (m0 :: ms)).enumFrom 1).map (fun p => render_entry p.1 p.2)) ++
        syn_line m0) ∧
    (surviving (m0 :: ms)).length ≤ 3 := by
  constructor
  · simp only [format_definition, h, Option.getD_some]
    rw [format_meanings_enum]
    rfl
  · calc (surviving (m0 :: ms)).length ≤ ((m0 :: ms).take 3).length :=
          List.length_filter_le _ _
      _ ≤ 3 := List.length_take_le _ _

def wMeaningA : JMeaning :=
  ⟨some "noun", some [⟨some "defA", some "exA"⟩], some ["s1", "s2", "s3", "s4", "s5", "s6"]⟩

def wMeaningB : JMeaning := ⟨some "verb", some [], none⟩

def wMeaningC : JMeaning :=
  ⟨some "adjective", some [⟨some "defC", none⟩, ⟨some "defC2", some "exC2"⟩], none⟩

def wMeaningD : JMeaning := ⟨some "adverb", some [⟨some "defD", some "exD"⟩], none⟩

def wMeaningE : JMeaning := ⟨some "noun", some [⟨some "defE", none⟩], none⟩

def wEntry : JEntry :=
  ⟨some "/tE/", some [wMeaningA, wMeaningB, wMeaningC, wMeaningD, wMeaningE]⟩

theorem C6_witness :
    wEntry.meanings = some (wMeaningA :: [wMeaningB, wMeaningC, wMeaningD, wMeaningE]) ∧
    (format_definition "test" [wEntry] =
      pyStrip (format_header "test" (wEntry.phonetic.getD "") ++
        strJoin (((surviving
          (wMeaningA :: [wMeaningB, wMeaningC, wMeaningD, wMeaningE])).enumFrom 1).map
            (fun p => render_entry p.1 p.2)) ++
        syn_line wMeaningA) ∧
     (surviving (wMeaningA :: [wMeaningB, wMeaningC, wMeaningD, wMeaningE])).length ≤ 3) :=
  ⟨rfl, C6_window_then_filter "test" wEntry []
    wMeaningA [wMeaningB, wMeaningC, wMeaningD, wMeaningE] rfl⟩

/-! ### Dispatcher lemmas -/

theorem wf_success (idv res : JVal) :
    wellFormedResp idv (create_success_response idv res) :=
  ⟨rfl, rfl, rfl⟩

theorem wf_error (idv : JVal) (code : Int) (msg : String) :
    wellFormedResp idv (create_error_response idv code msg) :=
  ⟨rfl, rfl, rfl⟩

theorem handle_message_wf (process : String → Except String String)
    (params request_id : JVal) :
    wellFormedResp request_id (handle_message process params request_id) := by
  unfold handle_message
  repeat' split
  all_goals first
    | exact wf_success _ _
    | exact wf_error _ _ _

/-- Under a valid version, method `"message"` and a dict `params`, dispatch
reduces to the message handler. -/
theorem dispatch_message (process : String → Except String String)
    (payload ps : List (String × JVal))
    (hv : jget payload "jsonrpc" = .str "2.0")
    (hm : jget payload "method" = .str "message")
    (hp : (lookupField payload "params").getD (.obj []) = .obj ps) :
    handle_a2a_message process payload =
      handle_message process (.obj ps) (jget payload "id") := by
  simp only [handle_a2a_message, hv, hm, hp]
  rfl

/-- Message extraction on a dict whose tried fields are all absent or
strings agrees with the spec-side first-non-empty selection. -/
theorem or_chain_spec (fields : List (String × JVal)) (ks : List String)
    (hs : (ks.all fun k =>
      match lookupField fields k with
      | none => true
      | some (.str _) => true
      | some _ => false) = true) :
    or_chain fields ks =
      .str (((ks.filterMap (field_text fields)).filter (fun s => s ≠ "")).headD "") := by
  induction ks with
  | nil => rfl
  | cons k ks ih =>
    rw [List.all_cons, Bool.and_eq_true] at hs
    obtain ⟨hk, hrest⟩ := hs
    have step : or_chain fields (k :: ks) =
        (if truthy (jget fields k) then jget fields k else or_chain fields ks) := rfl
    rw [step, List.filterMap_cons]
    cases hl : lookupField fields k with
    | none =>
      have hj : jget fields k = JVal.null := by rw [jget, hl]; rfl
      have hft : field_text fields k = none := by unfold field_text; rw [hl]
      have hcn : ¬ (truthy JVal.null = true) := by decide
      rw [hj, if_neg hcn, hft]
      exact ih hrest
    | some v =>
      cases v with
      | str s =>
        have hj : jget fields k = JVal.str s := by rw [jget, hl]; rfl
        have hft : field_text fields k = some s := by unfold field_text; rw [hl]
        by_cases hse : s = ""
        · subst hse
          have hcn : ¬ (truthy (JVal.str "") = true) := by decide
          rw [hj, if_neg hcn, hft]
          exact ih hrest
        · rw [hj, if_pos (show truthy (JVal.str s) = true from bne_iff_ne.mpr hse), hft]
          simp [List.filter_cons, hse]
      | null => rw [hl] at hk; exact absurd hk (by decide)
      | bool b => rw [hl] at hk; exact absurd hk (by simp)
      | num n => rw [hl] at hk; exact absurd hk (by simp)
      | arr elems => rw [hl] at hk; exact absurd hk (by simp)
      | obj fs => rw [hl] at hk; exact absurd hk (by simp)

theorem extract_text_spec (ps : List (String × JVal)) (hs : stringFields ps = true) :
    extract_message_text (.obj ps) = .ok (.str (spec_first_text ps)) := by
  have h1 : extract_message_text (.obj ps) = .ok (or_chain ps msg_keys) := rfl
  rw [h1, or_chain_spec ps msg_keys hs]
  rfl

/-- Full reduction of dispatch on a `"message"` envelope with string-valued
(or absent) text fields: the `-32602` error when the trimmed extracted text
is empty, else the agent result (success, or the inner `-32603` fault
wrapper). -/
theorem dispatch_message_text (process : String → Except String String)
    (payload ps : List (String × JVal))
    (hv : jget payload "jsonrpc" = .str "2.0")
    (hm : jget payload "method" = .str "message")
    (hp : (lookupField payload "params").getD (.obj []) = .obj ps)
    (hs : stringFields ps = true) :
    handle_a2a_message process payload =
      (if pyStrip (spec_first_text ps) = "" then
        create_error_response (jget payload "id") (-32602) "No message content provided"
      else
        match process (spec_first_text ps) with
        | .ok bot =>
          create_success_response (jget payload "id") (message_result bot)
        | .error e =>
          create_error_response (jget payload "id") (-32603)
            ("Error processing message: " ++ e)) := by
  rw [dispatch_message process payload ps hv hm hp]
  have step : handle_message process (.obj ps) (jget payload "id") =
      (if truthy (or_chain ps msg_keys) = false then
        create_error_response (jget payload "id") (-32602) "No message content provided"
      else
        match or_chain ps msg_keys with
        | .str s =>
          if pyStrip s = "" then
            create_error_response (jget payload "id") (-32602) "No message content provided"
          else
            match process s with
            | .ok bot =>
              create_success_response (jget payload "id") (message_result bot)
            | .error e =>
              create_error_response (jget payload "id") (-32603)
                ("Error processing message: " ++ e)
        | v =>
          create_error_response (jget payload "id") (-32603)
            ("Error processing message: '" ++ pyTypeName v ++ "' object has no attribute 'strip'")) :=
    rfl
  have hfold :
      JVal.str (((msg_keys.filterMap (field_text ps)).filter (fun s => s ≠ "")).headD "") =
        JVal.str (spec_first_text ps) := rfl
  rw [step, or_chain_spec ps msg_keys hs, hfold]
  by_cases h0 : spec_first_text ps = ""
  · rw [h0]
    rfl
  · have hcn : ¬ (truthy (JVal.str (spec_first_text ps)) = false) := by
      intro hc
      simp only [truthy] at hc
      exact h0 (by simpa using hc)
    rw [if_neg hcn]

/-- C1: for every JSON object payload and every agent oracle, dispatch
returns (it is a total function; no exception reaches the caller) a
well-formed JSON-RPC response: protocol version `"2.0"`, the request's id
echoed (`null` when absent), and exactly one of `result`/`error` present. -/
theorem C1_dispatch_wellformed (process : String → Except String String)
    (payload : List (String × JVal)) :
    wellFormedResp (jget payload "id") (handle_a2a_message process payload) := by
  simp only [handle_a2a_message]
  repeat' split
  all_goals first
    | exact handle_message_wf _ _ _
    | exact wf_success _ _
    | exact wf_error _ _ _

def wProcessOk : String → Except String String := fun s => .ok ("R:" ++ s)

def wProcessBad : String → Except String String := fun _ => .error "boom"

def wParamsBlank : List (String × JVal) := [("text", .str "   ")]

def wPayloadBlank : List (String × JVal) :=
  [("jsonrpc", .str "2.0"), ("method", .str "message"),
   ("params", .obj wParamsBlank), ("id", .str "7")]

def wParamsHi : List (String × JVal) := [("message", .str "hi")]

def wPayloadHi : List (String × JVal) :=
  [("jsonrpc", .str "2.0"), ("method", .str "message"),
   ("params", .obj wParamsHi), ("id", .str "1")]

/-- C2 counterexample: a fault raised during the `"message"` handling (here
an agent oracle that raises `boom`) is reported with code `-32603` but with
message `"Error processing message: boom"`, not the claimed
`"Internal error: boom"`. -/
theorem C2_counterexample :
    handle_a2a_message wProcessBad wPayloadHi =
      create_error_response (.str "1") (-32603) "Error processing message: boom" ∧
    "Error processing message: boom" ≠ "Internal error: boom" := by
  refine ⟨rfl, ?_⟩
  decide

/-- C2 (amended): an uncaught fault during the `"message"` handling is
caught inside the message handler and mapped to `Failure(id, -32603)` whose
message is exactly `"Error processing message: "` followed by the fault's
message text; dispatch never propagates the fault. -/
theorem C2_inner_fault_message (process : String → Except String String)
    (payload ps : List (String × JVal)) (e : String)
    (hv : jget payload "jsonrpc" = .str "2.0")
    (hm : jget payload "method" = .str "message")
    (hp : (lookupField payload "params").getD (.obj []) = .obj ps)
    (hs : stringFields ps = true)
    (ht : pyStrip (spec_first_text ps) ≠ "")
    (hb : process (spec_first_text ps) = .error e) :
    handle_a2a_message process payload =
      create_error_response (jget payload "id") (-32603)
        ("Error processing message: " ++ e) := by
  rw [dispatch_message_text process payload ps hv hm hp hs, if_neg ht, hb]

theorem C2_witness :
    (jget wPayloadHi "jsonrpc" = .str "2.0") ∧
    (jget wPayloadHi "method" = .str "message") ∧
    ((lookupField wPayloadHi "params").getD (.obj []) = .obj wParamsHi) ∧
    (stringFields wParamsHi = true) ∧
    (pyStrip (spec_first_text wParamsHi) ≠ "") ∧
    (wProcessBad (spec_first_text wParamsHi) = .error "boom") ∧
    handle_a2a_message wProcessBad wPayloadHi =
      create_error_response (jget wPayloadHi "id") (-32603)
        ("Error processing message: " ++ "boom") :=
  ⟨rfl, rfl, rfl, rfl, by decide, rfl,
   C2_inner_fault_message wProcessBad wPayloadHi wParamsHi "boom"
     rfl rfl rfl rfl (by decide) rfl⟩

/-- C3: on a `"message"` envelope whose tried params fields are absent or
strings, the extracted text is the first non-empty of `message`, `text`,
`content`, `input` (else the empty string); when its trimming is empty,
dispatch returns the `-32602` "No message content provided" failure — an
answer independent of the agent oracle, which is therefore never
consulted. -/
theorem C3_extraction_and_empty (process : String → Except String String)
    (payload ps : List (String × JVal))
    (hv : jget payload "jsonrpc" = .str "2.0")
    (hm : jget payload "method" = .str "message")
    (hp : (lookupField payload "params").getD (.obj []) = .obj ps)
    (hs : stringFields ps = true) :
    extract_message_text (.obj ps) = .ok (.str (spec_first_text ps)) ∧
    (pyStrip (spec_first_text ps) = "" →
      handle_a2a_message process payload =
        create_error_response (jget payload "id") (-32602) "No message content provided") := by
  constructor
  · exact extract_text_spec ps hs
  · intro h0
    rw [dispatch_message_text process payload ps hv hm hp hs, if_pos h0]

theorem C3_witness :
    (jget wPayloadBlank "jsonrpc" = .str "2.0") ∧
    (jget wPayloadBlank "method" = .str "message") ∧
    ((lookupField wPayloadBlank "params").getD (.obj []) = .obj wParamsBlank) ∧
    (stringFields wParamsBlank = true) ∧
    (pyStrip (spec_first_text wParamsBlank) = "") ∧
    (extract_message_text (.obj wParamsBlank) = .ok (.str (spec_first_text wParamsBlank)) ∧
     handle_a2a_message wProcessOk wPayloadBlank =
       create_error_response (jget wPayloadBlank "id") (-32602) "No message content provided") :=
  ⟨rfl, rfl, rfl, rfl, rfl,
   (C3_extraction_and_empty wProcessOk wPayloadBlank wParamsBlank rfl rfl rfl rfl).1,
   (C3_extraction_and_empty wProcessOk wPayloadBlank wParamsBlank rfl rfl rfl rfl).2 rfl⟩

/-- C4: on a `"message"` envelope with string-valued (or absent) text
fields whose extracted text has non-empty trimming, dispatch returns
`Success(id, result)` where `result` holds the agent's reply under the four
duplicate keys `content`, `message`, `text`, `response`, together with
`type="message"`, `format="text"`, `status="success"` and the agent display
name. -/
theorem C4_duplicate_result_fields (process : String → Except String String)
    (payload ps : List (String × JVal)) (bot : String)
    (hv : jget payload "jsonrpc" = .str "2.0")
    (hm : jget payload "method" = .str "message")
    (hp : (lookupField payload "params").getD (.obj []) = .obj ps)
    (hs : stringFields ps = true)
    (ht : pyStrip (spec_first_text ps) ≠ "")
    (hb : process (spec_first_text ps) = .ok bot) :
    handle_a2a_message process payload =
      create_success_response (jget payload "id") (message_result bot) ∧
    getField (message_result bot) "content" = some (.str bot) ∧
    getField (message_result bot) "message" = some (.str bot) ∧
    getField (message_result bot) "text" = some (.str bot) ∧
    getField (message_result bot) "response" = some (.str bot) ∧
    getField (message_result bot) "type" = some (.str "message") ∧
    getField (message_result bot) "format" = some (.str "text") ∧
    getField (message_result bot) "status" = some (.str "success") ∧
    getField (message_result bot) "agent" = some (.str "SmartDict Bot") := by
  refine ⟨?_, rfl, rfl, rfl, rfl, rfl, rfl, rfl, rfl⟩
  rw [dispatch_message_text process payload ps hv hm hp hs, if_neg ht, hb]

theorem C4_witness :
    (jget wPayloadHi "jsonrpc" = .str "2.0") ∧
    (jget wPayloadHi "method" = .str "message") ∧
    ((lookupField wPayloadHi "params").getD (.obj []) = .obj wParamsHi) ∧
    (stringFields wParamsHi = true) ∧
    (pyStrip (spec_first_text wParamsHi) ≠ "") ∧
    (wProcessOk (spec_first_text wParamsHi) = .ok "R:hi") ∧
    (handle_a2a_message wProcessOk wPayloadHi =
      create_success_response (jget wPayloadHi "id") (message_result "R:hi") ∧
     getField (message_result "R:hi") "content" = some (.str "R:hi") ∧
     getField (message_result "R:hi") "message" = some (.str "R:hi") ∧
     getField (message_result "R:hi") "text" = some (.str "R:hi") ∧
     getField (message_result "R:hi") "response" = some (.str "R:hi") ∧
     getField (message_result "R:hi") "type" = some (.str "message") ∧
     getField (message_result "R:hi") "format" = some (.str "text") ∧
     getField (message_result "R:hi") "status" = some (.str "success") ∧
     getField (message_result "R:hi") "agent" = some (.str "SmartDict Bot")) :=
  ⟨rfl, rfl, rfl, rfl, by decide, rfl,
   C4_duplicate_result_fields wProcessOk wPayloadHi wParamsHi "R:hi"
     rfl rfl rfl rfl (by decide) rfl⟩

end TelexDict
